import Mathlib

/-!
Shallow embedding of `src/checkopenbgpd/checkopenbgpd.py`, a Nagios-style
monitoring probe for OpenBGPD sessions.  The script runs `bgpctl show`,
parses its tabular output into `Session` records, classifies each session
through the `BgpStatus` context, and summarises the per-session results
through `AuditSummary`.

The script's shebang is `python2.7`, so Python 2 comparison semantics apply:
`None` compares below every integer (`0 > None` is `True`, `None > 0` is
`False`).  The helpers below model the Python string primitives the script
uses (`str.isdigit`, `int` on digit strings, `str.splitlines`,
`str.rsplit(None, n)`), and the parts of the `nagiosplugin` library the
script relies on (`Range` matching, result records, the `most_significant`
result subset).
-/

namespace CheckOpenBgpd

/-- Characters Python 2 `str.split(None)` treats as whitespace
(space, tab, newline, carriage return, vertical tab, form feed). -/
def pyIsSpace (c : Char) : Bool :=
  c = ' ' || c = '\t' || c = '\n' || c = '\r' || c = '\x0b' || c = '\x0c'

/-- Python 2 `str.isdigit`: true iff the string is nonempty and every
character is an ASCII digit. -/
def pyIsdigit (s : String) : Bool :=
  !s.isEmpty && s.data.all Char.isDigit

/-- Value of `int(s)` for a string of ASCII digits (the only way the script
calls `int` on metric values, guarded by `isdigit`). -/
def pyIntOfDigits (s : String) : Nat :=
  s.data.foldl (fun n c => n * 10 + (c.toNat - 48)) 0

/-- Splits a character list at every newline, keeping empty pieces. -/
def splitNlGo : List Char → List Char → List (List Char)
  | [], cur => [cur.reverse]
  | c :: cs, cur =>
    if c = '\n' then cur.reverse :: splitNlGo cs []
    else splitNlGo cs (c :: cur)

/-- Python `str.splitlines` restricted to `'\n'` separators: split on every
newline and drop the trailing empty piece that a terminating newline leaves
behind; the empty string yields the empty list. -/
def pySplitlines (s : String) : List String :=
  if s = "" then []
  else
    let p := (splitNlGo s.data []).map String.mk
    if p.getLastD "?" = "" then p.dropLast else p

/-- Worker for `pyRsplitWs`: the characters are processed reversed, so
trailing whitespace is dropped first and tokens are collected from the
right; when the split budget `k` is exhausted the whole remaining prefix is
kept as one piece, leading whitespace included. -/
def pyRsplitGo : List Char → Nat → List String → List String
  | rcs, k, acc =>
    let rcs := rcs.dropWhile pyIsSpace
    if rcs.isEmpty then acc
    else
      match k with
      | 0 => String.mk rcs.reverse :: acc
      | Nat.succ k =>
        let tok := rcs.takeWhile (fun c => !pyIsSpace c)
        let rest := rcs.dropWhile (fun c => !pyIsSpace c)
        pyRsplitGo rest k (String.mk tok.reverse :: acc)

/-- Python `s.rsplit(None, maxsplit)`: split from the right on runs of
whitespace, at most `maxsplit` splits, no empty pieces; the leftmost piece
keeps any remaining internal whitespace. -/
def pyRsplitWs (s : String) (maxsplit : Nat) : List String :=
  pyRsplitGo s.data.reverse maxsplit []

/-- One parsed `bgpctl show` line: the `Session` namedtuple of the script,
with fields `('Neighbor', 'AS', 'MsgRcvd', 'MsgSent', 'OutQ', 'Up_Down',
'State_PrfRcvd')`. -/
structure Session where
  Neighbor : String
  AS : String
  MsgRcvd : String
  MsgSent : String
  OutQ : String
  Up_Down : String
  State_PrfRcvd : String
deriving DecidableEq, Repr

/-- The four `nagiosplugin.state` service states. -/
inductive ServiceState where
  | Ok
  | Warn
  | Critical
  | Unknown
deriving DecidableEq, Repr

/-- Numeric code of a service state (`nagiosplugin` orders states by this
code: Ok=0, Warn=1, Critical=2, Unknown=3). -/
def ServiceState.code : ServiceState → Nat
  | .Ok => 0
  | .Warn => 1
  | .Critical => 2
  | .Unknown => 3

/-- A `nagiosplugin.Metric` as the script builds it: a name (the neighbor)
and a value (the string returned by `check_session`). -/
structure Metric where
  name : String
  value : String
deriving DecidableEq, Repr

/-- A `nagiosplugin.Result`: state, hint text and the originating metric.
Since the script never sets a metric description, `str(result)` is exactly
the hint. -/
structure RResult where
  state : ServiceState
  hint : String
  metric : Metric
deriving DecidableEq, Repr

/-- The state `BgpStatus.__init__` leaves behind: the stored critical and
warning levels, the two optional `nagiosplugin.Range` objects (the critical
range `"~:c"` is just its upper bound; the warning range `"lo:hi"` is its
two bounds), the idle list and the context name. -/
structure BgpStatusCtx where
  critical : Int
  criticalRange : Option Int
  warning : Int
  warningRange : Option (Int × Int)
  idle_list : Option (List String)
  name : String
deriving DecidableEq, Repr

/-- Python 2 `w > c` where `c` may be `None`: every integer compares
strictly above `None`. -/
def py2GtOpt (w : Int) (c : Option Int) : Bool :=
  match c with
  | none => true
  | some c => w > c

/-- Python 2 `c > 0` where `c` may be `None`: `None > 0` is `False`. -/
def py2OptGtZero (c : Option Int) : Bool :=
  match c with
  | none => false
  | some c => c > 0

/-- The body of `BgpStatus.__init__` for context `name`, warning level
`warning` (an `int`, CLI default 0), critical level `critical` (`int` or
`None`, CLI default `None`) and idle list `idle_list`.  Mirrors the Python 2
comparisons: `critical > 0` decides the critical range `"~:critical"`, and
`warning > critical` (against the raw argument, `None` below all ints)
decides the warning range `"self.critical:warning"`.  Constructing a
`nagiosplugin.Range` whose start exceeds its end raises `ValueError`, which
the model surfaces as an error. -/
def mkBgpStatus (name : String) (warning : Int) (critical : Option Int)
    (idle_list : Option (List String)) : Except String BgpStatusCtx :=
  let selfCritical : Int := if py2OptGtZero critical then critical.getD 0 else 0
  let criticalRange : Option Int :=
    if py2OptGtZero critical then some selfCritical else none
  if py2GtOpt warning critical then
    if selfCritical ≤ warning then
      Except.ok ⟨selfCritical, criticalRange, warning,
        some (selfCritical, warning), idle_list, name⟩
    else
      Except.error "ValueError: start of warning range greater than end"
  else
    Except.ok ⟨selfCritical, criticalRange, 0, none, idle_list, name⟩

/-- Matching a value against the critical range `"~:c"`:
`nagiosplugin.Range.match` is true iff the value lies inside the range,
here `v ≤ c`. -/
def criticalMatch (r : Option Int) (v : Int) : Bool :=
  match r with
  | none => false
  | some c => v ≤ c

/-- Matching a value against the warning range `"lo:hi"`: inside means
`lo ≤ v ≤ hi`. -/
def warningMatch (r : Option (Int × Int)) (v : Int) : Bool :=
  match r with
  | none => false
  | some (lo, hi) => lo ≤ v && v ≤ hi

/-- Hint used wherever the session is not in the expected state:
`"%s is %s, should be Established;"`. -/
def shouldBeHint (m : Metric) : String :=
  m.name ++ " is " ++ m.value ++ ", should be Established;"

/-- Numeric branch of `BgpStatus.evaluate`, entered when
`metric.value.isdigit()`: check the critical range, then the warning range,
else report OK with the raw count. -/
def evaluateNumeric (ctx : BgpStatusCtx) (m : Metric) : RResult :=
  let value : Int := pyIntOfDigits m.value
  if criticalMatch ctx.criticalRange value then
    ⟨ServiceState.Critical,
      m.name ++ ": prfx_rcvd " ++ toString value ++ " of "
        ++ toString ctx.critical ++ " target;", m⟩
  else if warningMatch ctx.warningRange value then
    ⟨ServiceState.Warn,
      m.name ++ ": prfx_rcvd " ++ toString value ++ " of "
        ++ toString ctx.warning ++ " target;", m⟩
  else
    ⟨ServiceState.Ok, m.name ++ "=" ++ m.value ++ " pfrx_rcvd;", m⟩

/-- State-name branch of `BgpStatus.evaluate`, entered when the metric
value is not a digit string: Critical by default, downgraded to OK only for
an `"Idle"` value whose neighbor sits in a non-`None` idle list. -/
def evaluateState (ctx : BgpStatusCtx) (m : Metric) : RResult :=
  if m.value = "Idle" then
    match ctx.idle_list with
    | some l =>
      if l.contains m.name then
        ⟨ServiceState.Ok, m.name ++ " in idle_list", m⟩
      else
        ⟨ServiceState.Critical, shouldBeHint m, m⟩
    | none => ⟨ServiceState.Critical, shouldBeHint m, m⟩
  else
    ⟨ServiceState.Critical, shouldBeHint m, m⟩

/-- The whole of `BgpStatus.evaluate`: the `isdigit` test selects the
numeric-threshold branch or the state-name branch. -/
def evaluate (ctx : BgpStatusCtx) (m : Metric) : RResult :=
  if pyIsdigit m.value then evaluateNumeric ctx m else evaluateState ctx m

/-- The body of `CheckBgpCtl.check_session`: binds the trailing field, runs
`int(state)` when it is all digits (a dead assignment, modelled by the
unused binding), and returns the original string either way. -/
def check_session (session : Session) : String :=
  let state := session.State_PrfRcvd
  let _result : Option Int :=
    if pyIsdigit state then some (pyIntOfDigits state) else none
  state

/-- The body of `CheckBgpCtl.probe` after `_get_sessions` has produced
`sessions` (`None` when stdout was empty or header-only): for each session
whose neighbor is not in the ignore list, yield one metric named after the
neighbor and valued by `check_session`. -/
def probe (ignore_list : List String) (sessions : Option (List Session)) :
    List Metric :=
  match sessions with
  | none => []
  | some ss =>
    ss.filterMap fun session =>
      if ignore_list.contains session.Neighbor then none
      else some ⟨session.Neighbor, check_session session⟩

/-- The `Session` namedtuple applied to a 7-token list (positions read off
the token list; meaningful only at length 7). -/
def sessionOfTokens (ts : List String) : Session :=
  ⟨ts.getD 0 "", ts.getD 1 "", ts.getD 2 "", ts.getD 3 "",
    ts.getD 4 "", ts.getD 5 "", ts.getD 6 ""⟩

/-- Builds a `Session` from the tokens of one data line: exactly 7 tokens
feed the namedtuple; any other count makes `Session(*tokens)` raise
`TypeError`. -/
def sessionOfLine (line : String) : Except String Session :=
  let ts := pyRsplitWs line 6
  if ts.length = 7 then
    Except.ok (sessionOfTokens ts)
  else
    Except.error "TypeError: Session() argument count mismatch"

/-- The list comprehension of `_get_sessions`: builds one `Session` per
line in input order, propagating the `TypeError` of the first malformed
line. -/
def sessionsOfLines : List String → Except String (List Session)
  | [] => Except.ok []
  | l :: ls => do
    let s ← sessionOfLine l
    let rest ← sessionsOfLines ls
    return s :: rest

/-- The body of `CheckBgpCtl._get_sessions` given the captured `stdout` and
`stderr` of `bgpctl show`: non-empty stderr raises `CheckError` with the
hostname and the last stderr line before any parsing; otherwise the header
line of stdout is dropped and each remaining line is rsplit into a
`Session`; empty stdout or a header-only stdout returns `None`. -/
def getSessions (hostname stdout stderr : String) :
    Except String (Option (List Session)) :=
  if stderr ≠ "" then
    Except.error (hostname ++ " " ++ (pySplitlines stderr).getLastD "")
  else if stdout ≠ "" then
    let output := (pySplitlines stdout).drop 1
    if output ≠ [] then do
      let sessions ← sessionsOfLines output
      return some sessions
    else
      Except.ok none
  else
    Except.ok none

/-- The most significant state among a result list, as
`nagiosplugin.Results.most_significant_state` computes it: the maximum of
the state codes (0 on an empty list, where the library would raise). -/
def mostSignificantCode (results : List RResult) : Nat :=
  results.foldl (fun m r => max m r.state.code) 0

/-- The list `nagiosplugin.Results.most_significant`: the results whose
state is the most significant one. -/
def most_significant (results : List RResult) : List RResult :=
  results.filter fun r => r.state.code = mostSignificantCode results

/-- The accumulation loop of `AuditSummary.problem`: starting from a single
space, each non-OK result prepends `str(result)` (its hint) and a space. -/
def problemStats (results : List RResult) : String :=
  results.foldl
    (fun acc r =>
      if r.state ≠ ServiceState.Ok then " " ++ r.hint ++ acc else acc)
    " "

/-- The body of `AuditSummary.problem`: `"%d Session(s): %s"` with
`len(results.most_significant)` and the accumulated non-OK hints. -/
def problem (results : List RResult) : String :=
  toString (most_significant results).length ++ " Session(s): "
    ++ problemStats results

/-- Claim C7: whenever the external command produces non-empty error
output, `_get_sessions` raises before any parsing: the probe fails with the
error message built from the local hostname, a space and the last line of
the captured stderr, whatever stdout holds. -/
theorem getSessions_stderr_aborts (hostname stdout stderr : String)
    (h : stderr ≠ "") :
    getSessions hostname stdout stderr
      = Except.error (hostname ++ " " ++ (pySplitlines stderr).getLastD "") := by
  simp [getSessions, h]

/-- Witness for C7: a concrete two-line stderr makes the probe fail with
the hostname and the last stderr line. -/
theorem getSessions_stderr_aborts_witness :
    getSessions "myhost" "hdr\np1 65001 10 12 0 01:02:03 77" "boom\nsocket gone"
      = Except.error "myhost socket gone" :=
  (getSessions_stderr_aborts "myhost" _ _ (by decide)).trans rfl

/-- Generic shape of a filterMap whose function drops elements satisfying
`p` and maps the rest through `g`. -/
theorem filterMap_drop_if {α β : Type} (p : α → Bool) (g : α → β)
    (l : List α) :
    l.filterMap (fun a => if p a then none else some (g a))
      = (l.filter fun a => !p a).map g := by
  induction l with
  | nil => rfl
  | cons a tl ih =>
    rw [List.filterMap_cons, List.filter_cons]
    cases hp : p a
    · rw [if_neg (by simp [hp]), if_pos (by simp [hp]), List.map_cons, ih]
    · rw [if_pos (by simp [hp]), if_neg (by simp [hp]), ih]

/-- The probe over a present session list is the map over the non-ignored
sessions. -/
theorem probe_eq_map_filter (ig : List String) (ss : List Session) :
    probe ig (some ss)
      = (ss.filter fun s => !ig.contains s.Neighbor).map
          (fun s => ⟨s.Neighbor, check_session s⟩) := by
  have h0 : probe ig (some ss)
      = ss.filterMap (fun s =>
          if ig.contains s.Neighbor then none
          else some ⟨s.Neighbor, check_session s⟩) := rfl
  exact h0.trans (filterMap_drop_if (fun s => ig.contains s.Neighbor)
    (fun s => (⟨s.Neighbor, check_session s⟩ : Metric)) ss)

/-- Claim C5: `probe` yields exactly the metrics of the sessions whose
neighbor is outside the ignore list, one metric per such session, and no
metric of an ignored session ever reaches evaluation. -/
theorem probe_skips_ignored_sessions (ignore_list : List String)
    (ss : List Session) :
    probe ignore_list (some ss)
      = (ss.filter fun s => !ignore_list.contains s.Neighbor).map
          (fun s => ⟨s.Neighbor, check_session s⟩)
    ∧ (∀ m ∈ probe ignore_list (some ss),
        ignore_list.contains m.name = false)
    ∧ (probe ignore_list (some ss)).length
        = (ss.filter fun s => !ignore_list.contains s.Neighbor).length := by
  have heq := probe_eq_map_filter ignore_list ss
  refine ⟨heq, ?_, by rw [heq, List.length_map]⟩
  intro m hm
  rw [heq] at hm
  obtain ⟨s, hs, rfl⟩ := List.mem_map.mp hm
  simpa using (List.mem_filter.mp hs).2

/-- Witness for C5: with one ignored and one kept session, the ignored one
produces nothing and the kept one exactly one metric. -/
theorem probe_skips_ignored_sessions_witness :
    probe ["p2"] (some
        [⟨"p1", "65001", "10", "12", "0", "01:02:03", "77"⟩,
         ⟨"p2", "65002", "1", "2", "0", "00:01:02", "Idle"⟩])
      = [⟨"p1", "77"⟩]
    ∧ (["p2"].contains (Metric.name ⟨"p1", "77"⟩) = false) := by
  have h := probe_skips_ignored_sessions ["p2"]
    [⟨"p1", "65001", "10", "12", "0", "01:02:03", "77"⟩,
     ⟨"p2", "65002", "1", "2", "0", "00:01:02", "Idle"⟩]
  exact ⟨h.1.trans (by decide), h.2.1 ⟨"p1", "77"⟩ (by rw [h.1]; decide)⟩

/-- Claim C10: `check_session` returns the trailing field unchanged — the
guarded `int` conversion is a dead assignment — so every metric `probe`
yields carries the raw string of some input session. -/
theorem check_session_identity :
    (∀ s : Session, check_session s = s.State_PrfRcvd)
    ∧ (∀ (ig : List String) (ss : List Session) (m : Metric),
        m ∈ probe ig (some ss) →
          ∃ s ∈ ss, m.name = s.Neighbor ∧ m.value = s.State_PrfRcvd) := by
  refine ⟨fun s => rfl, ?_⟩
  intro ig ss m hm
  rw [probe_eq_map_filter] at hm
  obtain ⟨s, hs, rfl⟩ := List.mem_map.mp hm
  exact ⟨s, List.mem_of_mem_filter hs, rfl, rfl⟩

/-- Witness for C10: a digit-valued trailing field comes back verbatim from
`check_session`, and the metric built by `probe` carries it. -/
theorem check_session_identity_witness :
    check_session ⟨"p1", "65001", "10", "12", "0", "01:02:03", "0470"⟩ = "0470"
    ∧ ∃ s ∈ [(⟨"p1", "65001", "10", "12", "0", "01:02:03", "0470"⟩ : Session)],
        (Metric.name ⟨"p1", "0470"⟩) = s.Neighbor
          ∧ (Metric.value ⟨"p1", "0470"⟩) = s.State_PrfRcvd := by
  exact ⟨check_session_identity.1 _,
    check_session_identity.2 [] _ ⟨"p1", "0470"⟩ (by decide)⟩

/-- Claim C9: `evaluate` is a total function of the metric string: the
result state is always one of the four service states, and the `isdigit`
test alone decides whether the numeric-threshold branch or the state-name
branch produces the result. -/
theorem evaluate_total_verdict (ctx : BgpStatusCtx) (m : Metric) :
    ((evaluate ctx m).state = ServiceState.Ok
      ∨ (evaluate ctx m).state = ServiceState.Warn
      ∨ (evaluate ctx m).state = ServiceState.Critical
      ∨ (evaluate ctx m).state = ServiceState.Unknown)
    ∧ (pyIsdigit m.value = true → evaluate ctx m = evaluateNumeric ctx m)
    ∧ (pyIsdigit m.value = false → evaluate ctx m = evaluateState ctx m)
    ∧ check_session ⟨m.name, m.value, m.name, m.name, m.name, m.name, m.value⟩
        = m.value := by
  refine ⟨?_, fun h => by simp [evaluate, h], fun h => by simp [evaluate, h], rfl⟩
  rcases h : (evaluate ctx m).state with _ | _ | _ | _
  · exact Or.inl rfl
  · exact Or.inr (Or.inl rfl)
  · exact Or.inr (Or.inr (Or.inl rfl))
  · exact Or.inr (Or.inr (Or.inr rfl))

/-- Witness for C9: on a malformed numeric-looking value the state-name
branch fires and the verdict is among the four states. -/
theorem evaluate_total_verdict_witness :
    ((evaluate ⟨0, none, 0, some (0, 0), none, "bgpctl"⟩ ⟨"p1", "4x"⟩).state
        = ServiceState.Ok
      ∨ (evaluate ⟨0, none, 0, some (0, 0), none, "bgpctl"⟩ ⟨"p1", "4x"⟩).state
        = ServiceState.Warn
      ∨ (evaluate ⟨0, none, 0, some (0, 0), none, "bgpctl"⟩ ⟨"p1", "4x"⟩).state
        = ServiceState.Critical
      ∨ (evaluate ⟨0, none, 0, some (0, 0), none, "bgpctl"⟩ ⟨"p1", "4x"⟩).state
        = ServiceState.Unknown)
    ∧ evaluate ⟨0, none, 0, some (0, 0), none, "bgpctl"⟩ ⟨"p1", "4x"⟩
        = evaluateState ⟨0, none, 0, some (0, 0), none, "bgpctl"⟩ ⟨"p1", "4x"⟩ := by
  have h := evaluate_total_verdict ⟨0, none, 0, some (0, 0), none, "bgpctl"⟩
    ⟨"p1", "4x"⟩
  exact ⟨h.1, h.2.2.1 (by decide)⟩

/-- Characterization of a successful `BgpStatus.__init__` with a configured
(integer) critical level: the critical range is `"~:c"` exactly when
`0 < c`, and the warning range is `"self.critical:w"` exactly when
`c < w`. -/
theorem mkBgpStatus_ok_some (nm : String) (w c : Int)
    (idle : Option (List String)) (ctx : BgpStatusCtx)
    (hmk : mkBgpStatus nm w (some c) idle = Except.ok ctx) :
    ctx = ⟨if 0 < c then c else 0,
           if 0 < c then some c else none,
           if c < w then w else 0,
           if c < w then some (if 0 < c then c else 0, w) else none,
           idle, nm⟩ := by
  simp only [mkBgpStatus, py2OptGtZero, py2GtOpt, Option.getD_some,
    gt_iff_lt] at hmk
  by_cases hc : 0 < c <;> by_cases hw : c < w <;>
      simp only [hc, hw, Bool.false_eq_true, if_true, if_false, ite_true,
        ite_false, decide_eq_true_eq] at hmk ⊢
  · rw [if_pos (le_of_lt hw)] at hmk
    exact (Except.ok.inj hmk).symm
  · exact (Except.ok.inj hmk).symm
  · by_cases h0w : (0 : Int) ≤ w
    · rw [if_pos h0w] at hmk
      exact (Except.ok.inj hmk).symm
    · rw [if_neg h0w] at hmk
      cases hmk
  · exact (Except.ok.inj hmk).symm

/-- Claim C1: for a digit-valued trailing field parsed as `n`, with a
configured critical level `c`, the verdicts follow the claimed order: a
positive `c` with `n ≤ c` gives CRITICAL with the
`"name: prfx_rcvd n of c target;"` hint; otherwise `c < w` and
`c ≤ n ≤ w` give WARNING; otherwise the verdict is OK. -/
theorem evaluate_numeric_threshold_order (nm : String) (w c : Int)
    (idle : Option (List String)) (ctx : BgpStatusCtx) (name v : String)
    (n : Nat) (hmk : mkBgpStatus nm w (some c) idle = Except.ok ctx)
    (hd : pyIsdigit v = true) (hn : pyIntOfDigits v = n) :
    (0 < c ∧ (n : Int) ≤ c →
      evaluate ctx ⟨name, v⟩
        = ⟨ServiceState.Critical,
            name ++ ": prfx_rcvd " ++ toString (n : Int) ++ " of "
              ++ toString c ++ " target;", ⟨name, v⟩⟩)
    ∧ (¬(0 < c ∧ (n : Int) ≤ c) → c < w ∧ c ≤ (n : Int) ∧ (n : Int) ≤ w →
        (evaluate ctx ⟨name, v⟩).state = ServiceState.Warn)
    ∧ (¬(0 < c ∧ (n : Int) ≤ c) → ¬(c < w ∧ c ≤ (n : Int) ∧ (n : Int) ≤ w) →
        (evaluate ctx ⟨name, v⟩).state = ServiceState.Ok) := by
  have hctx := mkBgpStatus_ok_some nm w c idle ctx hmk
  subst hctx
  refine ⟨fun hcrit => ?_, fun hncrit hwarn => ?_, fun hncrit hnwarn => ?_⟩
  · simp [evaluate, hd, evaluateNumeric, criticalMatch, hn, hcrit.1, hcrit.2]
  · have hc0 : (0 : Int) ≤ (n : Int) := Int.natCast_nonneg n
    by_cases hc : 0 < c
    · have hnc : ¬((n : Int) ≤ c) := fun h => hncrit ⟨hc, h⟩
      simp [evaluate, hd, evaluateNumeric, criticalMatch, warningMatch, hn,
        hc, hwarn.1, hnc, hwarn.2.1, hwarn.2.2]
    · simp [evaluate, hd, evaluateNumeric, criticalMatch, warningMatch, hn,
        hc, hwarn.1, hc0, hwarn.2.2]
  · have hc0 : (0 : Int) ≤ (n : Int) := Int.natCast_nonneg n
    by_cases hc : 0 < c <;> by_cases hw : c < w
    · have hnc : ¬((n : Int) ≤ c) := fun h => hncrit ⟨hc, h⟩
      have hnw : ¬((n : Int) ≤ w) := by
        intro h
        exact hnwarn ⟨hw, le_of_lt (lt_of_not_le hnc), h⟩
      simp [evaluate, hd, evaluateNumeric, criticalMatch, warningMatch, hn,
        hc, hw, hnc, hnw]
    · have hnc : ¬((n : Int) ≤ c) := fun h => hncrit ⟨hc, h⟩
      simp [evaluate, hd, evaluateNumeric, criticalMatch, warningMatch, hn,
        hc, hw, hnc]
    · have hnw : ¬((n : Int) ≤ w) := by
        intro h
        exact hnwarn ⟨hw, le_trans (le_of_not_lt hc) hc0, h⟩
      simp [evaluate, hd, evaluateNumeric, criticalMatch, warningMatch, hn,
        hc, hw, hc0, hnw]
    · simp [evaluate, hd, evaluateNumeric, criticalMatch, warningMatch, hn,
        hc, hw]

/-- Witness for C1: trailing field `"4"` with critical 5 and warning 10
yields CRITICAL against the critical target. -/
theorem evaluate_numeric_threshold_order_witness :
    evaluate ⟨5, some 5, 10, some (5, 10), none, "bgpctl"⟩ ⟨"peer1", "4"⟩
      = ⟨ServiceState.Critical, "peer1: prfx_rcvd 4 of 5 target;",
          ⟨"peer1", "4"⟩⟩ := by
  have h := evaluate_numeric_threshold_order "bgpctl" 10 5 none
    ⟨5, some 5, 10, some (5, 10), none, "bgpctl"⟩ "peer1" "4" 4
    rfl (by decide) (by decide)
  exact (h.1 (by decide)).trans (by decide)

/-- Counterexample to C2 as stated: the word `"Established"` is non-numeric
and not `"Idle"`, so the verdict is CRITICAL, but the hint carries a
trailing semicolon, so it differs from the claimed message
`"peer1 is Established, should be Established"`. -/
theorem evaluate_established_hint_exact :
    mkBgpStatus "bgpctl" 0 none none
      = Except.ok ⟨0, none, 0, some (0, 0), none, "bgpctl"⟩
    ∧ evaluate ⟨0, none, 0, some (0, 0), none, "bgpctl"⟩
        ⟨"peer1", "Established"⟩
      = ⟨ServiceState.Critical, "peer1 is Established, should be Established;",
          ⟨"peer1", "Established"⟩⟩
    ∧ "peer1 is Established, should be Established;"
        ≠ "peer1 is Established, should be Established" :=
  ⟨rfl, by decide, by decide⟩

/-- Claim C2 (amended: the CRITICAL message carries a trailing semicolon):
a non-digit trailing field yields CRITICAL with hint
`"name is value, should be Established;"`, except that value `"Idle"` with
the neighbor in a present idle list yields OK with hint
`"name in idle_list"`; `"Established"` itself takes the CRITICAL branch. -/
theorem evaluate_state_branch_verdicts (ctx : BgpStatusCtx)
    (name v : String) (hnd : pyIsdigit v = false) :
    ((v = "Idle" ∧ ∃ l, ctx.idle_list = some l ∧ l.contains name = true) →
      evaluate ctx ⟨name, v⟩
        = ⟨ServiceState.Ok, name ++ " in idle_list", ⟨name, v⟩⟩)
    ∧ (¬(v = "Idle" ∧ ∃ l, ctx.idle_list = some l ∧ l.contains name = true) →
      evaluate ctx ⟨name, v⟩
        = ⟨ServiceState.Critical,
            name ++ " is " ++ v ++ ", should be Established;", ⟨name, v⟩⟩) := by
  constructor
  · rintro ⟨rfl, l, hl, hmem⟩
    have hmem2 : name ∈ l := by simpa using hmem
    simp [evaluate, hnd, evaluateState, hl, hmem2]
  · intro hno
    by_cases hv : v = "Idle"
    · subst hv
      cases hl : ctx.idle_list with
      | none => simp [evaluate, hnd, evaluateState, hl, shouldBeHint]
      | some l =>
        have hmem : l.contains name = false := by
          cases hq : l.contains name
          · rfl
          · exact absurd ⟨rfl, l, hl, hq⟩ hno
        have hmem2 : name ∉ l := by simpa using hmem
        simp [evaluate, hnd, evaluateState, hl, hmem2, shouldBeHint]
    · simp [evaluate, hnd, evaluateState, hv, shouldBeHint]

/-- Witness for C2 (amended): the idle-list exception fires for an allowed
`"Idle"` neighbor, and `"Established"` itself is CRITICAL with the
semicolon-terminated message. -/
theorem evaluate_state_branch_verdicts_witness :
    evaluate ⟨0, none, 0, some (0, 0), some ["peerX"], "bgpctl"⟩
        ⟨"peerX", "Idle"⟩
      = ⟨ServiceState.Ok, "peerX in idle_list", ⟨"peerX", "Idle"⟩⟩
    ∧ evaluate ⟨0, none, 0, some (0, 0), none, "bgpctl"⟩
        ⟨"peer1", "Established"⟩
      = ⟨ServiceState.Critical,
          "peer1 is Established, should be Established;",
          ⟨"peer1", "Established"⟩⟩ := by
  constructor
  · exact (evaluate_state_branch_verdicts
      ⟨0, none, 0, some (0, 0), some ["peerX"], "bgpctl"⟩ "peerX" "Idle"
      (by decide)).1 ⟨rfl, ["peerX"], rfl, by decide⟩
  · refine (evaluate_state_branch_verdicts
      ⟨0, none, 0, some (0, 0), none, "bgpctl"⟩ "peer1" "Established"
      (by decide)).2 ?_
    rintro ⟨hv, l, hl, hmem⟩
    cases hl

/-- Characterization of a successful `BgpStatus.__init__` with an absent
(`None`) critical level: under Python 2 any warning integer compares above
`None`, so the warning range is always built as `"0:w"`, which also forces
`0 ≤ w` for the construction to succeed. -/
theorem mkBgpStatus_ok_none (nm : String) (w : Int)
    (idle : Option (List String)) (ctx : BgpStatusCtx)
    (hmk : mkBgpStatus nm w none idle = Except.ok ctx) :
    ctx = ⟨0, none, w, some (0, w), idle, nm⟩ ∧ 0 ≤ w := by
  simp only [mkBgpStatus, py2OptGtZero, py2GtOpt, Bool.false_eq_true,
    if_true, if_false, ite_true, ite_false] at hmk
  by_cases h0w : (0 : Int) ≤ w
  · rw [if_pos h0w] at hmk
    exact ⟨(Except.ok.inj hmk).symm, h0w⟩
  · rw [if_neg h0w] at hmk
    cases hmk

/-- State of the numeric branch as a plain conditional on the two range
matches. -/
theorem evaluateNumeric_state (ctx : BgpStatusCtx) (m : Metric) :
    (evaluateNumeric ctx m).state
      = (if criticalMatch ctx.criticalRange (pyIntOfDigits m.value : Int)
          then ServiceState.Critical
         else if warningMatch ctx.warningRange (pyIntOfDigits m.value : Int)
          then ServiceState.Warn
         else ServiceState.Ok) := by
  by_cases h1 : criticalMatch ctx.criticalRange (pyIntOfDigits m.value : Int)
  · simp [evaluateNumeric, h1]
  · by_cases h2 : warningMatch ctx.warningRange (pyIntOfDigits m.value : Int)
    · simp [evaluateNumeric, h1, h2]
    · simp [evaluateNumeric, h1, h2]

/-- Counterexample to C3 as stated: with neither threshold configured
(warning 0, critical `None`, the CLI defaults) the degenerate warning range
`"0:0"` is built, and a numeric trailing field `"0"` is classified WARNING,
not OK. -/
theorem default_policy_zero_prefixes_warn :
    mkBgpStatus "bgpctl" 0 none none
      = Except.ok ⟨0, none, 0, some (0, 0), none, "bgpctl"⟩
    ∧ (evaluate ⟨0, none, 0, some (0, 0), none, "bgpctl"⟩
        ⟨"peer1", "0"⟩).state = ServiceState.Warn
    ∧ ServiceState.Warn ≠ ServiceState.Ok :=
  ⟨rfl, by decide, by decide⟩

/-- Claim C3 (amended): a critical level that is zero or absent disables the
critical check; the warning check is disabled exactly when the warning level
is not above the critical argument under Python 2 ordering (`None` below
every int), so warning 0 disables it whenever an integer critical is
configured; but with both defaults (warning 0, critical `None`) the warning
range degenerates to `"0:0"`, so a numeric field 0 is WARNING while any
positive count is OK. -/
theorem threshold_zero_disable_semantics (nm : String) (w : Int)
    (copt : Option Int) (idle : Option (List String)) (ctx : BgpStatusCtx)
    (name v : String)
    (hmk : mkBgpStatus nm w copt idle = Except.ok ctx)
    (hd : pyIsdigit v = true) :
    ((copt = none ∨ copt = some 0) →
      (evaluate ctx ⟨name, v⟩).state ≠ ServiceState.Critical)
    ∧ (py2GtOpt w copt = false →
      (evaluate ctx ⟨name, v⟩).state ≠ ServiceState.Warn)
    ∧ (w = 0 → copt = none →
      ((pyIntOfDigits v = 0 →
          (evaluate ctx ⟨name, v⟩).state = ServiceState.Warn)
        ∧ (0 < pyIntOfDigits v →
          (evaluate ctx ⟨name, v⟩).state = ServiceState.Ok))) := by
  have hev : evaluate ctx ⟨name, v⟩ = evaluateNumeric ctx ⟨name, v⟩ := by
    simp [evaluate, hd]
  refine ⟨fun hzero => ?_, fun hgt => ?_, fun hw0 hnone => ?_⟩
  · have hcr : ctx.criticalRange = none := by
      rcases hzero with rfl | rfl
      · rw [(mkBgpStatus_ok_none nm w idle ctx hmk).1]
      · rw [mkBgpStatus_ok_some nm w 0 idle ctx hmk]
        simp
    rw [hev, evaluateNumeric_state, hcr]
    by_cases h2 : warningMatch ctx.warningRange (pyIntOfDigits v : Int)
    · simp [criticalMatch, h2]
    · simp [criticalMatch, h2]
  · have hwr : ctx.warningRange = none := by
      rcases copt with _ | c
      · simp [py2GtOpt] at hgt
      · rw [mkBgpStatus_ok_some nm w c idle ctx hmk]
        have hcw : ¬(c < w) := by simpa [py2GtOpt] using hgt
        simp [hcw]
    rw [hev, evaluateNumeric_state, hwr]
    by_cases h1 : criticalMatch ctx.criticalRange (pyIntOfDigits v : Int)
    · simp [warningMatch, h1]
    · simp [warningMatch, h1]
  · subst hw0
    subst hnone
    obtain ⟨hctx, _⟩ := mkBgpStatus_ok_none nm 0 idle ctx hmk
    subst hctx
    rw [hev, evaluateNumeric_state]
    constructor
    · intro h0
      simp [criticalMatch, warningMatch, h0]
    · intro hpos
      have hle : ¬((pyIntOfDigits v : Int) ≤ 0) := by
        simp only [not_le]
        exact_mod_cast hpos
      simp [criticalMatch, warningMatch, hle]

/-- Witness for C3 (amended): critical 0 disables both checks entirely,
while the default configuration classifies 3 received prefixes as OK. -/
theorem threshold_zero_disable_semantics_witness :
    (evaluate ⟨0, none, 0, none, none, "bgpctl"⟩ ⟨"p1", "0"⟩).state
        ≠ ServiceState.Critical
    ∧ (evaluate ⟨0, none, 0, none, none, "bgpctl"⟩ ⟨"p1", "0"⟩).state
        ≠ ServiceState.Warn
    ∧ (evaluate ⟨0, none, 0, some (0, 0), none, "bgpctl"⟩ ⟨"p1", "3"⟩).state
        = ServiceState.Ok := by
  have h1 := threshold_zero_disable_semantics "bgpctl" 0 (some 0) none
    ⟨0, none, 0, none, none, "bgpctl"⟩ "p1" "0" rfl (by decide)
  have h2 := threshold_zero_disable_semantics "bgpctl" 0 none none
    ⟨0, none, 0, some (0, 0), none, "bgpctl"⟩ "p1" "3" rfl (by decide)
  exact ⟨h1.1 (Or.inr rfl), h1.2.1 rfl, (h2.2.2 rfl rfl).2 (by decide)⟩

/-- Counterexample to C4 as stated: two evaluated results, one CRITICAL and
one OK, give a problem summary prefixed `"1 Session(s)"` — the length of
`most_significant`, the results in the worst state — not the claimed total
count `"2 Session(s)"`. -/
theorem problem_count_counterexample :
    problem [⟨ServiceState.Critical, "crit-hint;", ⟨"p1", "Idle"⟩⟩,
             ⟨ServiceState.Ok, "ok-hint;", ⟨"p2", "7"⟩⟩]
      = "1 Session(s):  crit-hint; "
    ∧ ([⟨ServiceState.Critical, "crit-hint;", ⟨"p1", "Idle"⟩⟩,
        ⟨ServiceState.Ok, "ok-hint;", ⟨"p2", "7"⟩⟩] : List RResult).length = 2
    ∧ ¬ (("2 Session(s)").data
          <+: (problem [⟨ServiceState.Critical, "crit-hint;", ⟨"p1", "Idle"⟩⟩,
                ⟨ServiceState.Ok, "ok-hint;", ⟨"p2", "7"⟩⟩]).data) :=
  ⟨by decide, by decide, by decide⟩

/-- The accumulated problem string only depends on the non-OK results: OK
results leave the accumulator untouched. -/
theorem problemStats_filter (l : List RResult) :
    problemStats l
      = problemStats (l.filter fun r => decide (r.state ≠ ServiceState.Ok)) := by
  suffices h : ∀ acc : String,
      List.foldl
        (fun acc r =>
          if r.state ≠ ServiceState.Ok then " " ++ r.hint ++ acc else acc)
        acc l
      = List.foldl
          (fun acc r =>
            if r.state ≠ ServiceState.Ok then " " ++ r.hint ++ acc else acc)
          acc (l.filter fun r => decide (r.state ≠ ServiceState.Ok)) from
    h " "
  intro acc
  induction l generalizing acc with
  | nil => rfl
  | cons r tl ih =>
    rw [List.foldl_cons, List.filter_cons]
    by_cases hr : r.state = ServiceState.Ok
    · rw [if_neg (by simp [hr]), if_neg (by simp [hr])]
      exact ih acc
    · rw [if_pos hr, if_pos (by simp [hr]), List.foldl_cons, if_pos hr]
      exact ih (" " ++ r.hint ++ acc)

/-- Claim C4 (amended: the leading count is the number of results in the
most significant state, not of all evaluated sessions): the problem summary
is that count, the label `"Session(s)"`, and an accumulation of the hints
of exactly the non-OK results — OK hints never contribute. -/
theorem problem_summary_shape (results : List RResult) :
    problem results
      = toString (most_significant results).length ++ " Session(s): "
        ++ problemStats
            (results.filter fun r => decide (r.state ≠ ServiceState.Ok)) := by
  rw [problem, problemStats_filter]

/-- Binding a successful `Except` just applies the continuation. -/
theorem except_bind_ok {ε α β : Type} (x : α) (f : α → Except ε β) :
    ((Except.ok x : Except ε α) >>= f) = f x := rfl

/-- Binding a failed `Except` propagates the error. -/
theorem except_bind_error {ε α β : Type} (e : ε) (f : α → Except ε β) :
    ((Except.error e : Except ε α) >>= f) = Except.error e := rfl

/-- When every line splits into exactly 7 tokens, the comprehension
succeeds and maps each line to its `Session`, preserving order. -/
theorem sessionsOfLines_ok (lines : List String)
    (h : ∀ l ∈ lines, (pyRsplitWs l 6).length = 7) :
    sessionsOfLines lines
      = Except.ok (lines.map fun l => sessionOfTokens (pyRsplitWs l 6)) := by
  induction lines with
  | nil => rfl
  | cons l tl ih =>
    have hl : sessionOfLine l = Except.ok (sessionOfTokens (pyRsplitWs l 6)) := by
      rw [sessionOfLine, if_pos (h l (List.mem_cons_self l tl))]
    rw [sessionsOfLines, hl, except_bind_ok,
      ih (fun x hx => h x (List.mem_cons_of_mem _ hx)), except_bind_ok]
    rfl

/-- If some line does not split into 7 tokens, the comprehension fails. -/
theorem sessionsOfLines_error (lines : List String) (l : String)
    (hl : l ∈ lines) (h7 : (pyRsplitWs l 6).length ≠ 7) :
    ∃ e, sessionsOfLines lines = Except.error e := by
  induction lines with
  | nil => cases hl
  | cons a tl ih =>
    rcases List.mem_cons.mp hl with rfl | htl
    · refine ⟨"TypeError: Session() argument count mismatch", ?_⟩
      rw [sessionsOfLines, sessionOfLine, if_neg h7, except_bind_error]
    · cases ha : sessionOfLine a with
      | error e =>
        exact ⟨e, by rw [sessionsOfLines, ha, except_bind_error]⟩
      | ok s =>
        obtain ⟨e, he⟩ := ih htl
        refine ⟨e, ?_⟩
        rw [sessionsOfLines, ha, except_bind_ok, he, except_bind_error]

/-- Pieces after the first produced by the right-split are whitespace-free
tokens: only the leftmost piece can retain internal whitespace. -/
theorem pyRsplitGo_drop_one_clean (k : Nat) :
    ∀ (rcs : List Char) (acc : List String),
      (∀ t ∈ acc, t.data.all (fun c => !pyIsSpace c) = true) →
      ∀ t ∈ (pyRsplitGo rcs k acc).drop 1,
        t.data.all (fun c => !pyIsSpace c) = true := by
  induction k with
  | zero =>
    intro rcs acc hacc t ht
    simp only [pyRsplitGo] at ht
    by_cases he : (rcs.dropWhile pyIsSpace).isEmpty
    · rw [if_pos he] at ht
      exact hacc t (List.drop_subset _ _ ht)
    · rw [if_neg he, List.drop_succ_cons, List.drop_zero] at ht
      exact hacc t ht
  | succ k ih =>
    intro rcs acc hacc t ht
    simp only [pyRsplitGo] at ht
    by_cases he : (rcs.dropWhile pyIsSpace).isEmpty
    · rw [if_pos he] at ht
      exact hacc t (List.drop_subset _ _ ht)
    · rw [if_neg he] at ht
      refine ih _ _ ?_ t ht
      intro u hu
      rcases List.mem_cons.mp hu with rfl | h
      · simp only [List.all_eq_true]
        intro c hc
        rw [List.mem_reverse] at hc
        exact List.mem_takeWhile_imp (p := fun c => !pyIsSpace c) hc
      · exact hacc u h

/-- Claim C6: with every data line splitting into exactly 7 tokens, the
parser drops the header line and returns the `Session` records of the data
lines in input order (`None` for empty or header-only stdout), and every
token after the leftmost one — the 6 trailing fields — is whitespace-free,
so the neighbor field absorbs all remaining leading text. -/
theorem getSessions_parses_data_lines (hostname stdout : String)
    (h7 : ∀ l ∈ (pySplitlines stdout).drop 1, (pyRsplitWs l 6).length = 7) :
    (getSessions hostname stdout ""
      = Except.ok
          (if (pySplitlines stdout).drop 1 = [] then none
           else some (((pySplitlines stdout).drop 1).map
              fun l => sessionOfTokens (pyRsplitWs l 6))))
    ∧ (∀ l : String, ∀ t ∈ (pyRsplitWs l 6).drop 1,
        t.data.all (fun c => !pyIsSpace c) = true) := by
  constructor
  · by_cases hs : stdout = ""
    · subst hs
      rfl
    · simp only [getSessions]
      rw [if_neg (by simp), if_pos hs]
      by_cases ho : (pySplitlines stdout).drop 1 = []
      · rw [if_neg (by simpa using ho), if_pos ho]
      · rw [if_pos ho, sessionsOfLines_ok _ h7, except_bind_ok,
          if_neg ho]
        rfl
  · intro l t ht
    exact pyRsplitGo_drop_one_clean 6 l.data.reverse [] (by simp) t ht

/-- Witness for C6: a data line with 8 raw tokens parses into a session
whose neighbor field absorbed the two leading tokens, and empty or
header-only stdout parses to `None`. -/
theorem getSessions_parses_data_lines_witness :
    getSessions "h" "hdr\npX ex 65002 1 2 0 00:01:02 4" ""
      = Except.ok (some [⟨"pX ex", "65002", "1", "2", "0", "00:01:02", "4"⟩])
    ∧ getSessions "h" "" "" = Except.ok none
    ∧ getSessions "h" "hdr" "" = Except.ok none := by
  have h1 := getSessions_parses_data_lines "h"
    "hdr\npX ex 65002 1 2 0 00:01:02 4" (by decide)
  have h2 := getSessions_parses_data_lines "h" "" (by decide)
  have h3 := getSessions_parses_data_lines "h" "hdr" (by decide)
  exact ⟨h1.1.trans rfl, h2.1.trans rfl, h3.1.trans rfl⟩

/-- Claim C8: a data line that does not split into exactly 7 fields makes
the whole parse fail with an error — no partial session sequence is ever
returned. -/
theorem getSessions_malformed_line_aborts (hostname stdout l : String)
    (hl : l ∈ (pySplitlines stdout).drop 1)
    (h7 : (pyRsplitWs l 6).length ≠ 7) :
    ∃ e, getSessions hostname stdout "" = Except.error e := by
  have hs : stdout ≠ "" := by
    intro h
    rw [h, show pySplitlines "" = [] from rfl] at hl
    simp at hl
  have ho : (pySplitlines stdout).drop 1 ≠ [] := by
    intro h
    rw [h] at hl
    simp at hl
  obtain ⟨e, he⟩ := sessionsOfLines_error _ l hl h7
  refine ⟨e, ?_⟩
  simp only [getSessions]
  rw [if_neg (by simp), if_pos hs, if_pos ho, he, except_bind_error]

/-- Witness for C8: a two-token data line aborts the probe with an error. -/
theorem getSessions_malformed_line_aborts_witness :
    ("bad line" ∈ (pySplitlines "hdr\nbad line").drop 1)
    ∧ ∃ e, getSessions "h" "hdr\nbad line" "" = Except.error e :=
  ⟨by decide,
    getSessions_malformed_line_aborts "h" "hdr\nbad line" "bad line"
      (by decide) (by decide)⟩

end CheckOpenBgpd
